import Mathlib

set_option maxRecDepth 100000

/-!
Verification of the Chatty-CLI pipeline (`src/chatty-cli.py`).

The development shallowly embeds the program's core: the prompt builder
(`get_specialized_prompt`), the benchmarked inference call
(`chat_with_benchmark`), the benchmark logger (`BenchmarkLogger`), the
model comparator (`compare_models`), and the control flow of `main`.

External effects are made explicit:
  * the single HTTP exchange performed by a call is summarized by a
    `NetEvent` (either a successful JSON reply, with or without a
    `response` field, or a raised exception of one of the classes the
    code catches);
  * wall-clock readings (`time.time()` difference, `datetime.now()`
    timestamps) are abstract parameters;
  * Python exceptions travel in an `Except PyExn` monad, so that the
    try/except structure of the source is represented faithfully.

Strings are Lean `String`s; Python's `len(s.encode('utf-8'))` is
`String.utf8ByteSize`; Python's `str.lower()` is `py_lower`, which
lowercases the basic latin letters (CPython's `str.lower()` agrees
with it on ASCII input, and the dictionary keys the program compares
against are all ASCII).
-/

/-- The exception classes distinguished by the `try/except` chain in
`chat_with_benchmark` (lines 211-230 of `src/chatty-cli.py`):
`requests.exceptions.ConnectionError`, `requests.exceptions.Timeout`,
`requests.exceptions.HTTPError` (raised by `raise_for_status` on a
non-2xx reply, carrying the status code and body text), and the
catch-all `Exception` (e.g. a JSON decoding failure), carrying its
message. -/
inductive PyExn where
  | connectionError : PyExn
  | timeoutError : PyExn
  | httpError (status : Nat) (body : String) : PyExn
  | otherError (msg : String) : PyExn
deriving DecidableEq

/-- What the HTTP layer did during one `requests.post` +
`raise_for_status` + `.json()` sequence: either it produced a decoded
JSON object whose optional `response` field is given, or it raised an
exception. -/
inductive NetEvent where
  | ok (respField : Option String) : NetEvent
  | raise (e : PyExn) : NetEvent
deriving DecidableEq

/-- The dictionary returned by `chat_with_benchmark`
(lines 248-253): keys `response`, `response_time`, `success`, `error`.
The elapsed wall-clock duration is abstract (`Nat`). -/
structure InferenceOutcome where
  response : String
  response_time : Nat
  success : Bool
  error : String
deriving DecidableEq

/- ---------------------------------------------------------------
   Prompt builder (`DeepseekCoderClient.get_specialized_prompt`,
   lines 112-190). Each template is the literal f-string from the
   source, split at its interpolation points.
   --------------------------------------------------------------- -/

/-- Python's `str.lower()` on one character, for the basic latin
range: `A`-`Z` (codepoints 65-90) map 32 codepoints up, everything
else is unchanged. -/
def py_lower_char (c : Char) : Char :=
  if 65 ≤ c.toNat ∧ c.toNat ≤ 90 then Char.ofNat (c.toNat + 32) else c

/-- Python's `str.lower()` (`task_type.lower()` at line 190), as a map
over the character sequence. -/
def py_lower (s : String) : String := ⟨s.data.map py_lower_char⟩

def review_pre : String :=
  "You are an expert code reviewer. Analyze the following code for:\n- Code quality and best practices\n- Potential bugs or issues\n- Security vulnerabilities\n- Performance improvements\n- Documentation and comments\n\nProvide specific, actionable feedback with examples where appropriate.\n\nCode to review:\n```python\n"

def debug_pre : String :=
  "You are an expert debugger. The user needs help debugging this code. Analyze for:\n- Logic errors and incorrect assumptions\n- Runtime issues and exceptions\n- Edge cases not handled\n- Missing error handling\n- Potential infinite loops or recursion\n\nProvide step-by-step debugging guidance with explanations.\n\nCode to debug:\n```python\n"

def explain_pre : String :=
  "You are a helpful programming teacher. Explain this code clearly and simply:\n- What the code does\n- How it works\n- Key concepts and patterns used\n- What each major section does\n\nUse analogies or simple language when helpful.\n\nCode to explain:\n```python\n"

def optimize_pre : String :=
  "You are a performance optimization expert. Analyze this code for:\n- Algorithmic improvements\n- Memory usage optimization\n- Bottleneck identification\n- Parallelization opportunities\n- Python-specific optimizations\n\nProvide concrete optimization suggestions with code examples.\n\nCode to optimize:\n```python\n"

def general_pre : String :=
  "You are a helpful coding assistant. Analyze the following code:\n\n```python\n"

/-- The text between the fenced context block and the question, shared
by the four specialized templates. -/
def question_mid : String := "\n```\n\nQuestion: "

/-- The text the general template appends after the question. -/
def general_post : String :=
  "\n\nPlease provide a helpful response focusing on code analysis and improvement suggestions."

def review_prompt (context question : String) : String :=
  review_pre ++ context ++ question_mid ++ question

def debug_prompt (context question : String) : String :=
  debug_pre ++ context ++ question_mid ++ question

def explain_prompt (context question : String) : String :=
  explain_pre ++ context ++ question_mid ++ question

def optimize_prompt (context question : String) : String :=
  optimize_pre ++ context ++ question_mid ++ question

def general_prompt (context question : String) : String :=
  general_pre ++ context ++ question_mid ++ question ++ general_post

/-- `get_specialized_prompt` (lines 112-190): looks the lowercased task
type up in the template dictionary, falling back to the `general`
template when the key is absent. -/
def get_specialized_prompt (task_type context question : String) : String :=
  let t := py_lower task_type
  if t = "review" then review_prompt context question
  else if t = "debug" then debug_prompt context question
  else if t = "explain" then explain_prompt context question
  else if t = "optimize" then optimize_prompt context question
  else if t = "general" then general_prompt context question
  else general_prompt context question

/- ---------------------------------------------------------------
   Benchmark logger (`BenchmarkLogger`, lines 31-102).
   --------------------------------------------------------------- -/

/-- One entry of `log_data["benchmarks"]` (lines 65-75). Timestamps
are abstract strings (`datetime.now().isoformat()`); the elapsed time
is an abstract `Nat`. -/
structure BenchmarkRecord where
  timestamp : String
  model : String
  task_type : String
  response_time : Nat
  file_size : Nat
  prompt_length : Nat
  response_length : Nat
  success : Bool
  error_message : String
deriving DecidableEq

/-- Python's `str()` of a bool, as the `csv` module renders it. -/
def pyBoolStr (b : Bool) : String := if b then "True" else "False"

/-- The header row written by `__init__` (lines 53-57). -/
def csv_header : List String :=
  ["timestamp", "model", "task_type", "response_time",
   "file_size", "prompt_length", "response_length",
   "success", "error_message"]

/-- The CSV row written for one record (lines 80-83): the same values
as the JSON entry, stringified. -/
def record_to_row (r : BenchmarkRecord) : List String :=
  [r.timestamp, r.model, r.task_type, toString r.response_time,
   toString r.file_size, toString r.prompt_length, toString r.response_length,
   pyBoolStr r.success, r.error_message]

/-- The logger's state: the in-memory `log_data["benchmarks"]` array
and the rows flushed to the CSV file so far (the handle is flushed
after every write, line 86, so the in-memory row list and the on-disk
contents coincide). -/
structure BenchmarkLogger where
  session_id : String
  start_time : String
  benchmarks : List BenchmarkRecord
  csv : List (List String)
deriving DecidableEq

/-- `BenchmarkLogger.__init__` (lines 34-57): empty benchmark array,
CSV holding only the header row. -/
def BenchmarkLogger.new (session_id start_time : String) : BenchmarkLogger :=
  { session_id := session_id, start_time := start_time,
    benchmarks := [], csv := [csv_header] }

/-- `log_benchmark` (lines 59-86): append the entry to the JSON array
and the stringified row to the CSV file, then flush. -/
def BenchmarkLogger.log_benchmark (st : BenchmarkLogger) (ts model task_type : String)
    (response_time file_size prompt_length response_length : Nat)
    (success : Bool) (error_message : String) : BenchmarkLogger :=
  let entry : BenchmarkRecord :=
    { timestamp := ts, model := model, task_type := task_type,
      response_time := response_time, file_size := file_size,
      prompt_length := prompt_length, response_length := response_length,
      success := success, error_message := error_message }
  { st with benchmarks := st.benchmarks ++ [entry],
            csv := st.csv ++ [record_to_row entry] }

/-- What `close` (lines 88-102) leaves on disk: the JSON document's
benchmark array if the dump succeeded (`none` if it raised — the
exception is caught and downgraded to a warning), and the CSV rows,
which were already flushed and survive either way. -/
structure CloseResult where
  json_benchmarks : Option (List BenchmarkRecord)
  csv_rows : List (List String)
deriving DecidableEq

/-- `close` (lines 88-102). `json_write_ok` is the abstract fate of
`json.dump`; a failure is caught, so `close` itself never raises. -/
def BenchmarkLogger.close (st : BenchmarkLogger) (json_write_ok : Bool) : CloseResult :=
  { json_benchmarks := if json_write_ok then some st.benchmarks else none,
    csv_rows := st.csv }

/- ---------------------------------------------------------------
   Inference client (`DeepseekCoderClient.chat_with_benchmark`,
   lines 192-253).
   --------------------------------------------------------------- -/

/-- The `try` block (lines 211-217): `requests.post` +
`raise_for_status` + `.json()` either raises, or yields the reply's
`response` field with the literal default used by `result.get`
(line 216). Returns in the `Except PyExn` monad, so a raised exception
is visible to the handler below. -/
def chat_try (ev : NetEvent) : Except PyExn String :=
  match ev with
  | NetEvent.ok respField => Except.ok (respField.getD "No response from Ollama")
  | NetEvent.raise e => Except.error e

/-- The message built at line 220. -/
def cannot_connect_msg : String :=
  "Cannot connect to Ollama. Make sure Ollama is running on http://localhost:11434"

/-- The message built at line 223 (`{timeout}` interpolated). -/
def timeout_msg (timeout : Nat) : String :=
  "Request to Ollama timed out (exceeded " ++ toString timeout ++ "s). Try increasing timeout with --timeout flag"

/-- The message built at line 226 (`response.status_code` and
`response.text` interpolated). -/
def http_error_msg (status : Nat) (body : String) : String :=
  "Ollama returned error: " ++ toString status ++ " - " ++ body

/-- The message built at line 229 (`{e}` interpolated). -/
def other_error_msg (msg : String) : String :=
  "Error communicating with Ollama: " ++ msg

/-- The `except` chain (lines 219-230), applied to the result of the
try block: produces `(success, response_text, error_message)`. The
match on `Except.error` is total over `PyExn`, mirroring the final
catch-all `except Exception`. -/
def chat_classify (timeout : Nat) (r : Except PyExn String) : Bool × String × String :=
  match r with
  | Except.ok txt => (true, txt, "")
  | Except.error PyExn.connectionError =>
      (false, "Error: " ++ cannot_connect_msg, cannot_connect_msg)
  | Except.error PyExn.timeoutError =>
      (false, "Error: " ++ timeout_msg timeout, timeout_msg timeout)
  | Except.error (PyExn.httpError status body) =>
      (false, "Error: " ++ http_error_msg status body, http_error_msg status body)
  | Except.error (PyExn.otherError msg) =>
      (false, "Error: " ++ other_error_msg msg, other_error_msg msg)

/-- `chat_with_benchmark` (lines 192-253). `ev` is what the network
did, `elapsed` the measured wall-clock difference, `ts` the timestamp
taken inside `log_benchmark`. Returns the outcome dictionary and the
logger state after the optional `log_benchmark` call (lines 236-246). -/
def chat_with_benchmark (logger : Option BenchmarkLogger) (ev : NetEvent)
    (elapsed : Nat) (ts : String) (prompt context model task_type : String)
    (timeout : Nat) : InferenceOutcome × Option BenchmarkLogger :=
  let full_prompt := get_specialized_prompt task_type context prompt
  let r := chat_classify timeout (chat_try ev)
  let success := r.1
  let response_text := r.2.1
  let error_message := r.2.2
  let logger' := logger.map (fun st =>
    st.log_benchmark ts model task_type elapsed
      context.utf8ByteSize full_prompt.utf8ByteSize response_text.utf8ByteSize
      success error_message)
  ({ response := response_text, response_time := elapsed,
     success := success, error := error_message }, logger')

/- ---------------------------------------------------------------
   Model comparator (`ModelComparator.compare_models`, lines 262-291).
   --------------------------------------------------------------- -/

/-- The abstract inputs consumed by one `chat_with_benchmark` call:
the network event and the two clock readings. -/
structure CallEnv where
  ev : NetEvent
  elapsed : Nat
  ts : String

/-- Python dict assignment `results[model] = result` on an
insertion-ordered dictionary: an existing key keeps its position and
gets the new value, a new key is appended. -/
def dict_set (d : List (String × InferenceOutcome)) (k : String)
    (v : InferenceOutcome) : List (String × InferenceOutcome) :=
  if d.any (fun p => p.1 = k) then
    d.map (fun p => if p.1 = k then (k, v) else p)
  else d ++ [(k, v)]

/-- Ordered-dict lookup. -/
def dict_get (d : List (String × InferenceOutcome)) (k : String) :
    Option InferenceOutcome :=
  (d.find? (fun p => p.1 = k)).map (fun p => p.2)

/-- The loop body of `compare_models` (lines 276-289), with `i`
numbering the calls so that the `i`-th call consumes `envs i`. -/
def compare_models_go (envs : Nat → CallEnv) (context question task_type : String)
    (timeout : Nat) (i : Nat) (models : List String)
    (results : List (String × InferenceOutcome)) (logger : Option BenchmarkLogger) :
    List (String × InferenceOutcome) × Option BenchmarkLogger :=
  match models with
  | [] => (results, logger)
  | m :: rest =>
    let e := envs i
    let r := chat_with_benchmark logger e.ev e.elapsed e.ts question context m task_type timeout
    compare_models_go envs context question task_type timeout (i + 1) rest
      (dict_set results m r.1) r.2

/-- `compare_models` (lines 270-291): fold the model list into an
insertion-ordered dictionary of outcomes. -/
def compare_models (envs : Nat → CallEnv) (logger : Option BenchmarkLogger)
    (models : List String) (context question task_type : String) (timeout : Nat) :
    List (String × InferenceOutcome) × Option BenchmarkLogger :=
  compare_models_go envs context question task_type timeout 0 models [] logger

/-- The outcome of the `i`-th call of a comparison run: it depends
only on the call's environment and arguments, not on the logger. -/
def call_outcome (envs : Nat → CallEnv) (question context task_type : String)
    (timeout : Nat) (i : Nat) (model : String) : InferenceOutcome :=
  (chat_with_benchmark none (envs i).ev (envs i).elapsed (envs i).ts
    question context model task_type timeout).1

/- ---------------------------------------------------------------
   Repeated calls with a recorder attached (for the logging claims).
   --------------------------------------------------------------- -/

/-- The full argument vector of one `chat_with_benchmark` call. -/
structure ChatCall where
  ev : NetEvent
  elapsed : Nat
  ts : String
  prompt : String
  context : String
  model : String
  task_type : String
  timeout : Nat

/-- The argument vector of the `i`-th call a comparison run makes for
model `m`. -/
def cmp_call (envs : Nat → CallEnv) (question context task_type : String)
    (timeout : Nat) (i : Nat) (m : String) : ChatCall :=
  { ev := (envs i).ev, elapsed := (envs i).elapsed, ts := (envs i).ts,
    prompt := question, context := context, model := m,
    task_type := task_type, timeout := timeout }

/-- Run a sequence of `chat_with_benchmark` calls against one logger,
collecting the outcomes. -/
def run_calls (calls : List ChatCall) (logger : Option BenchmarkLogger) :
    List InferenceOutcome × Option BenchmarkLogger :=
  match calls with
  | [] => ([], logger)
  | c :: rest =>
    let r := chat_with_benchmark logger c.ev c.elapsed c.ts c.prompt c.context
      c.model c.task_type c.timeout
    let rec' := run_calls rest r.2
    (r.1 :: rec'.1, rec'.2)

/-- The benchmark record that one call appends (the values passed at
lines 237-246). -/
def call_record (c : ChatCall) : BenchmarkRecord :=
  let full_prompt := get_specialized_prompt c.task_type c.context c.prompt
  let r := chat_classify c.timeout (chat_try c.ev)
  { timestamp := c.ts, model := c.model, task_type := c.task_type,
    response_time := c.elapsed, file_size := c.context.utf8ByteSize,
    prompt_length := full_prompt.utf8ByteSize,
    response_length := r.2.1.utf8ByteSize,
    success := r.1, error_message := r.2.2 }

/- ---------------------------------------------------------------
   `main` (lines 306-441).
   --------------------------------------------------------------- -/

/-- The parsed command line and the file system facts `main` consults:
whether `Path(args.file).exists()` holds, and what
`read_file_content` yields (`none` when `open`/`read` raises, in which
case the function prints and calls `sys.exit(1)`). -/
structure MainArgs where
  list_models : Bool
  file_exists : Bool
  read_result : Option String
  benchmark : Bool
  models : Option (List String)
  compare_model : Option String
  model : String
  question : String
  task : String
  timeout : Nat

/-- How one invocation ends: `sys.exit(code)` or a normal return from
`main` (which makes the interpreter exit with code 0). -/
inductive ExitResult where
  | exited (code : Nat) : ExitResult
  | returned : ExitResult
deriving DecidableEq

/-- Python truthiness of `args.models` (`None` and `[]` are falsy). -/
def truthy_list (o : Option (List String)) : Bool :=
  match o with
  | some (_ :: _) => true
  | _ => false

/-- Python truthiness of `args.compare_model` (`None` and `""` are falsy). -/
def truthy_str (o : Option String) : Bool :=
  match o with
  | some s => s ≠ ""
  | none => false

/-- `main` (lines 306-441), over abstract per-call environments. The
`Except PyExn` layer carries any Python exception that would escape
`main`; the filesystem operations of the logger are taken to succeed
(normal operation), while the network may do anything, one `CallEnv`
per request. Returns the exit behaviour and, when a logger was
attached, what its `close` left on disk. -/
def main_run (args : MainArgs) (envs : Nat → CallEnv)
    (session_id start_time : String) (json_write_ok : Bool) :
    Except PyExn (ExitResult × Option CloseResult) :=
  if args.list_models then
    Except.ok (ExitResult.returned, none)
  else if ¬ args.file_exists then
    Except.ok (ExitResult.exited 1, none)
  else
    match args.read_result with
    | none => Except.ok (ExitResult.exited 1, none)
    | some content =>
      let logger := if args.benchmark then
          some (BenchmarkLogger.new session_id start_time) else none
      let logger' :=
        if truthy_list args.models then
          (compare_models envs logger (args.models.getD []) content
            args.question args.task args.timeout).2
        else if truthy_str args.compare_model then
          (compare_models envs logger [args.model, args.compare_model.getD ""]
            content args.question args.task args.timeout).2
        else
          (chat_with_benchmark logger (envs 0).ev (envs 0).elapsed (envs 0).ts
            args.question content args.model args.task args.timeout).2
      Except.ok (ExitResult.returned,
        logger'.map (fun st => st.close json_write_ok))

/-- The process exit status produced by a `main` behaviour: a normal
return exits 0, `sys.exit(c)` exits `c`, and an uncaught exception
makes CPython exit with status 1 (after printing a traceback). -/
def process_exit_code (r : Except PyExn (ExitResult × Option CloseResult)) : Nat :=
  match r with
  | Except.ok (ExitResult.returned, _) => 0
  | Except.ok (ExitResult.exited c, _) => c
  | Except.error _ => 1

/- ---------------------------------------------------------------
   Auxiliary notions and concrete inputs used by the statements.
   --------------------------------------------------------------- -/

/-- `s` occurs verbatim inside `p`. -/
def strContains (p s : String) : Prop := ∃ a b, p = a ++ s ++ b

/-- A benign call environment. -/
def default_env : CallEnv :=
  { ev := NetEvent.ok (some "ok"), elapsed := 1, ts := "t0" }

/-- Environments for a three-model comparison in which the second
call fails with a connection error. -/
def cmp_envs : Nat → CallEnv := fun i =>
  if i = 1 then { ev := NetEvent.raise PyExn.connectionError, elapsed := 2, ts := "t1" }
  else default_env

/-- A `--list-models` invocation naming a file that does not exist. -/
def args_list_models : MainArgs :=
  { list_models := true, file_exists := false, read_result := none,
    benchmark := false, models := none, compare_model := none,
    model := "deepseek-coder", question := "q", task := "general", timeout := 120 }

/-- A plain invocation whose input file is missing. -/
def args_missing_file : MainArgs :=
  { list_models := false, file_exists := false, read_result := none,
    benchmark := false, models := none, compare_model := none,
    model := "deepseek-coder", question := "q", task := "general", timeout := 120 }

/-- A single-model benchmarked invocation with a readable file. -/
def args_single : MainArgs :=
  { list_models := false, file_exists := true, read_result := some "print(1)",
    benchmark := true, models := none, compare_model := none,
    model := "deepseek-coder", question := "Find bugs", task := "debug", timeout := 120 }

/- ---------------------------------------------------------------
   Helper lemmas.
   --------------------------------------------------------------- -/

theorem append_ne_empty_left (s t : String) (h : s ≠ "") : s ++ t ≠ "" := by
  intro he
  apply h
  apply String.ext
  have hd : s.data ++ t.data = [] := by
    have h2 := congrArg String.data he
    simpa using h2
  exact (List.append_eq_nil.mp hd).1

theorem char_toNat_ofNat_valid (n : Nat) (h : n.isValidChar) :
    (Char.ofNat n).toNat = n := by
  rw [Char.ofNat, dif_pos h]
  rfl

theorem py_lower_char_idem (c : Char) :
    py_lower_char (py_lower_char c) = py_lower_char c := by
  by_cases h : 65 ≤ c.toNat ∧ c.toNat ≤ 90
  · have h1 : py_lower_char c = Char.ofNat (c.toNat + 32) := by
      simp only [py_lower_char, if_pos h]
    have hv : (c.toNat + 32).isValidChar := Or.inl (by omega)
    have h2 : (Char.ofNat (c.toNat + 32)).toNat = c.toNat + 32 :=
      char_toNat_ofNat_valid _ hv
    rw [h1]
    simp only [py_lower_char, h2]
    rw [if_neg (by omega)]
  · have h1 : py_lower_char c = c := by
      simp only [py_lower_char, if_neg h]
    rw [h1, h1]

theorem py_lower_idem (s : String) : py_lower (py_lower s) = py_lower s := by
  apply String.ext
  show (s.data.map py_lower_char).map py_lower_char = s.data.map py_lower_char
  rw [List.map_map]
  have hcomp : py_lower_char ∘ py_lower_char = py_lower_char :=
    funext py_lower_char_idem
  rw [hcomp]

theorem chat_classify_error_spec (timeout : Nat) (e : PyExn) :
    (chat_classify timeout (Except.error e)).1 = false
    ∧ (chat_classify timeout (Except.error e)).2.2 ≠ "" := by
  cases e with
  | connectionError =>
      refine ⟨rfl, ?_⟩
      show cannot_connect_msg ≠ ""
      decide
  | timeoutError =>
      refine ⟨rfl, ?_⟩
      show timeout_msg timeout ≠ ""
      rw [timeout_msg]
      exact append_ne_empty_left _ _ (append_ne_empty_left _ _ (by decide))
  | httpError status body =>
      refine ⟨rfl, ?_⟩
      show http_error_msg status body ≠ ""
      rw [http_error_msg]
      exact append_ne_empty_left _ _
        (append_ne_empty_left _ _ (append_ne_empty_left _ _ (by decide)))
  | otherError msg =>
      refine ⟨rfl, ?_⟩
      show other_error_msg msg ≠ ""
      rw [other_error_msg]
      exact append_ne_empty_left _ _ (by decide)

/- ---------------------------------------------------------------
   Claim theorems.
   --------------------------------------------------------------- -/

/-- Claim C1: for every instruction, model, and timeout,
`chat_with_benchmark` returns an outcome whose success flag is true
iff no error path was taken (iff the network exchange completed
without an exception), and whose error text is empty iff success is
true and non-empty iff success is false. -/
theorem chat_with_benchmark_success_iff (logger : Option BenchmarkLogger) (ev : NetEvent)
    (elapsed : Nat) (ts prompt context model task_type : String) (timeout : Nat) :
    ((chat_with_benchmark logger ev elapsed ts prompt context model task_type timeout).1.success = true
      ↔ ∃ rf, ev = NetEvent.ok rf)
    ∧ ((chat_with_benchmark logger ev elapsed ts prompt context model task_type timeout).1.error = ""
      ↔ (chat_with_benchmark logger ev elapsed ts prompt context model task_type timeout).1.success = true)
    ∧ ((chat_with_benchmark logger ev elapsed ts prompt context model task_type timeout).1.error ≠ ""
      ↔ (chat_with_benchmark logger ev elapsed ts prompt context model task_type timeout).1.success = false) := by
  cases ev with
  | ok rf =>
      refine ⟨?_, ?_, ?_⟩ <;> simp [chat_with_benchmark, chat_try, chat_classify]
  | raise e =>
      have hko := chat_classify_error_spec timeout e
      have hs : (chat_with_benchmark logger (NetEvent.raise e) elapsed ts prompt context model task_type timeout).1.success
          = (chat_classify timeout (Except.error e)).1 := rfl
      have herr : (chat_with_benchmark logger (NetEvent.raise e) elapsed ts prompt context model task_type timeout).1.error
          = (chat_classify timeout (Except.error e)).2.2 := rfl
      rw [hs, herr, hko.1]
      refine ⟨by simp, by simp [hko.2], by simp [hko.2]⟩

/-- Claim C2: the outcome of one call is classified by mutually
exclusive cases on what the exchange did. A completed exchange yields
success with the reply's `response` field (placeholder text when the
field is absent) and an empty error; a connection failure, a timeout,
a non-2xx status, and any other failure yield the distinct non-success
outcomes below, the timeout message naming the timeout value and the
HTTP message containing the status code and the body. -/
theorem chat_with_benchmark_classification (logger : Option BenchmarkLogger)
    (elapsed : Nat) (ts prompt context model task_type : String) (timeout : Nat) :
    (∀ rf, (chat_with_benchmark logger (NetEvent.ok rf) elapsed ts prompt context model task_type timeout).1
        = { response := rf.getD "No response from Ollama", response_time := elapsed,
            success := true, error := "" })
    ∧ ((chat_with_benchmark logger (NetEvent.raise PyExn.connectionError) elapsed ts prompt context model task_type timeout).1
        = { response := "Error: " ++ cannot_connect_msg, response_time := elapsed,
            success := false, error := cannot_connect_msg })
    ∧ ((chat_with_benchmark logger (NetEvent.raise PyExn.timeoutError) elapsed ts prompt context model task_type timeout).1
        = { response := "Error: " ++ timeout_msg timeout, response_time := elapsed,
            success := false, error := timeout_msg timeout })
    ∧ (∀ status body, (chat_with_benchmark logger (NetEvent.raise (PyExn.httpError status body)) elapsed ts prompt context model task_type timeout).1
        = { response := "Error: " ++ http_error_msg status body, response_time := elapsed,
            success := false, error := http_error_msg status body })
    ∧ (∀ msg, (chat_with_benchmark logger (NetEvent.raise (PyExn.otherError msg)) elapsed ts prompt context model task_type timeout).1
        = { response := "Error: " ++ other_error_msg msg, response_time := elapsed,
            success := false, error := other_error_msg msg })
    ∧ (∀ status body, strContains (http_error_msg status body) (toString status)
        ∧ strContains (http_error_msg status body) body)
    ∧ strContains (timeout_msg timeout) (toString timeout) := by
  refine ⟨fun rf => rfl, rfl, rfl, fun status body => rfl, fun msg => rfl, ?_, ?_⟩
  · intro status body
    constructor
    · exact ⟨"Ollama returned error: ", " - " ++ body,
        by rw [http_error_msg, String.append_assoc]⟩
    · exact ⟨"Ollama returned error: " ++ toString status ++ " - ", "",
        by rw [http_error_msg, String.append_empty]⟩
  · exact ⟨"Request to Ollama timed out (exceeded ",
      "s). Try increasing timeout with --timeout flag", by rw [timeout_msg]⟩

/-- Claim C6, counterexample: the dictionary returned by
`chat_with_benchmark` does not contain the model identifier — two
calls differing only in the model argument return identical outcome
values, so no component of the outcome can be the model identifier. -/
theorem outcome_contains_model_counterexample :
    ((chat_with_benchmark none (NetEvent.ok (some "hello")) 5 "t0" "Find bugs" "print(1)" "deepseek-coder" "general" 120).1
      = (chat_with_benchmark none (NetEvent.ok (some "hello")) 5 "t0" "Find bugs" "print(1)" "codellama" "general" 120).1)
    ∧ ("deepseek-coder" : String) ≠ "codellama" :=
  ⟨rfl, by decide⟩

/-- Claim C6, amended: the outcome returned by `chat_with_benchmark`
contains the elapsed duration, the success flag, the response text,
and the error text (empty on success) — but not the model identifier:
the outcome value is independent of the model argument. -/
theorem outcome_fields_amended (logger : Option BenchmarkLogger) (ev : NetEvent)
    (elapsed : Nat) (ts prompt context model task_type : String) (timeout : Nat) :
    ((chat_with_benchmark logger ev elapsed ts prompt context model task_type timeout).1.response_time = elapsed)
    ∧ ((chat_with_benchmark logger ev elapsed ts prompt context model task_type timeout).1.success = true
        → (chat_with_benchmark logger ev elapsed ts prompt context model task_type timeout).1.error = "")
    ∧ (∀ model', (chat_with_benchmark logger ev elapsed ts prompt context model' task_type timeout).1
        = (chat_with_benchmark logger ev elapsed ts prompt context model task_type timeout).1) := by
  refine ⟨rfl, ?_, fun m => rfl⟩
  intro h
  cases ev with
  | ok rf => rfl
  | raise e =>
      have hf := (chat_classify_error_spec timeout e).1
      have hs : (chat_with_benchmark logger (NetEvent.raise e) elapsed ts prompt context model task_type timeout).1.success
          = (chat_classify timeout (Except.error e)).1 := rfl
      rw [hs, hf] at h
      exact Bool.noConfusion h

/-- Claim C6 witness: a concrete successful call has an empty error
text. -/
theorem outcome_fields_amended_witness :
    (chat_with_benchmark none (NetEvent.ok (some "hi")) 1 "t0" "q" "c" "m" "general" 120).1.error = "" :=
  (outcome_fields_amended none (NetEvent.ok (some "hi")) 1 "t0" "q" "c" "m" "general" 120).2.1 rfl

/-- Claim C9: category matching in the prompt builder is
case-insensitive — building the instruction with any category string
yields exactly the instruction built with its lowercased form, because
the category is lowercased (idempotently) before template lookup. -/
theorem specialized_prompt_case_insensitive (task_type context question : String) :
    get_specialized_prompt task_type context question
      = get_specialized_prompt (py_lower task_type) context question := by
  simp only [get_specialized_prompt, py_lower_idem]

theorem template_contains (pre context question : String) :
    strContains (pre ++ context ++ question_mid ++ question) context
    ∧ strContains (pre ++ context ++ question_mid ++ question) question
    ∧ strContains (pre ++ context ++ question_mid ++ question) pre :=
  ⟨⟨pre, question_mid ++ question, by rw [String.append_assoc]⟩,
   ⟨pre ++ context ++ question_mid, "", by rw [String.append_empty]⟩,
   ⟨"", context ++ question_mid ++ question, by simp [String.append_assoc]⟩⟩

/-- Claim C5: for each of the four named task categories the built
instruction is the category's template applied to the context and the
question — it contains the literal context, the literal question, and
the category-specific guidance text (the four guidance preambles are
pairwise distinct) — and for every category string not lowercasing to
one of the four names the result is byte-for-byte the general
template's output. -/
theorem specialized_prompt_contract (context question : String) :
    (get_specialized_prompt "review" context question = review_prompt context question
      ∧ strContains (review_prompt context question) context
      ∧ strContains (review_prompt context question) question
      ∧ strContains (review_prompt context question) review_pre)
    ∧ (get_specialized_prompt "debug" context question = debug_prompt context question
      ∧ strContains (debug_prompt context question) context
      ∧ strContains (debug_prompt context question) question
      ∧ strContains (debug_prompt context question) debug_pre)
    ∧ (get_specialized_prompt "explain" context question = explain_prompt context question
      ∧ strContains (explain_prompt context question) context
      ∧ strContains (explain_prompt context question) question
      ∧ strContains (explain_prompt context question) explain_pre)
    ∧ (get_specialized_prompt "optimize" context question = optimize_prompt context question
      ∧ strContains (optimize_prompt context question) context
      ∧ strContains (optimize_prompt context question) question
      ∧ strContains (optimize_prompt context question) optimize_pre)
    ∧ (review_pre ≠ debug_pre ∧ review_pre ≠ explain_pre ∧ review_pre ≠ optimize_pre
      ∧ debug_pre ≠ explain_pre ∧ debug_pre ≠ optimize_pre ∧ explain_pre ≠ optimize_pre)
    ∧ (∀ t, py_lower t ∉ (["review", "debug", "explain", "optimize"] : List String)
        → get_specialized_prompt t context question = general_prompt context question) := by
  refine ⟨⟨?_, template_contains review_pre context question⟩,
          ⟨?_, template_contains debug_pre context question⟩,
          ⟨?_, template_contains explain_pre context question⟩,
          ⟨?_, template_contains optimize_pre context question⟩,
          ⟨by decide, by decide, by decide, by decide, by decide, by decide⟩, ?_⟩
  · have h : py_lower "review" = "review" := by decide
    simp only [get_specialized_prompt, h]
    rw [if_true]
  · have h : py_lower "debug" = "debug" := by decide
    simp only [get_specialized_prompt, h]
    rw [if_neg (by decide), if_true]
  · have h : py_lower "explain" = "explain" := by decide
    simp only [get_specialized_prompt, h]
    rw [if_neg (by decide), if_neg (by decide), if_true]
  · have h : py_lower "optimize" = "optimize" := by decide
    simp only [get_specialized_prompt, h]
    rw [if_neg (by decide), if_neg (by decide), if_neg (by decide), if_true]
  · intro t ht
    simp only [List.mem_cons, List.not_mem_nil, or_false, not_or] at ht
    obtain ⟨h1, h2, h3, h4⟩ := ht
    simp only [get_specialized_prompt]
    rw [if_neg h1, if_neg h2, if_neg h3, if_neg h4, ite_self]

/-- Claim C5 witness: a concrete unrecognized category falls back to
the general template. -/
theorem specialized_prompt_contract_witness :
    get_specialized_prompt "banana" "C" "Q" = general_prompt "C" "Q" :=
  (specialized_prompt_contract "C" "Q").2.2.2.2.2 "banana" (by decide)

theorem chat_logger_step (st : BenchmarkLogger) (ev : NetEvent) (elapsed : Nat)
    (ts prompt context model task_type : String) (timeout : Nat) :
    (chat_with_benchmark (some st) ev elapsed ts prompt context model task_type timeout).2
      = some { st with
          benchmarks := st.benchmarks
            ++ [call_record
                  { ev := ev, elapsed := elapsed, ts := ts, prompt := prompt,
                    context := context, model := model, task_type := task_type,
                    timeout := timeout }],
          csv := st.csv
            ++ [record_to_row (call_record
                  { ev := ev, elapsed := elapsed, ts := ts, prompt := prompt,
                    context := context, model := model, task_type := task_type,
                    timeout := timeout })] } := rfl

theorem run_calls_logger (calls : List ChatCall) (st : BenchmarkLogger) :
    (run_calls calls (some st)).2 = some { st with
        benchmarks := st.benchmarks ++ calls.map call_record,
        csv := st.csv ++ calls.map (fun c => record_to_row (call_record c)) } := by
  induction calls generalizing st with
  | nil => simp [run_calls]
  | cons c rest ih =>
      show (run_calls rest
          (chat_with_benchmark (some st) c.ev c.elapsed c.ts c.prompt c.context
            c.model c.task_type c.timeout).2).2 = _
      rw [chat_logger_step, ih]
      simp [List.append_assoc]

/-- Claim C4: with a recorder attached, every call appends exactly one
benchmark record: after running any list of N calls against a fresh
logger, the JSON benchmark array holds exactly the N records in call
order, the CSV holds the header plus the N corresponding rows in the
same order (so N+1 rows), and at close time the CSV row count is one
more than the JSON array length, the JSON document carrying exactly
the recorded array. -/
theorem benchmark_logger_counts (calls : List ChatCall) (sid st0 : String) (jok : Bool) :
    ∃ stf, (run_calls calls (some (BenchmarkLogger.new sid st0))).2 = some stf
      ∧ stf.benchmarks = calls.map call_record
      ∧ stf.csv = csv_header :: calls.map (fun c => record_to_row (call_record c))
      ∧ stf.benchmarks.length = calls.length
      ∧ stf.csv.length = calls.length + 1
      ∧ (stf.close jok).csv_rows.length = calls.length + 1
      ∧ (stf.close true).json_benchmarks = some (calls.map call_record) := by
  refine ⟨_, run_calls_logger calls (BenchmarkLogger.new sid st0), ?_, ?_, ?_, ?_, ?_, ?_⟩ <;>
    simp [BenchmarkLogger.new, BenchmarkLogger.close]

theorem dict_set_append (d : List (String × InferenceOutcome)) (k : String)
    (v : InferenceOutcome) (h : ∀ p ∈ d, p.1 ≠ k) : dict_set d k v = d ++ [(k, v)] := by
  rw [dict_set, if_neg]
  intro hc
  rw [List.any_eq_true] at hc
  obtain ⟨p, hp, he⟩ := hc
  exact h p hp (by simpa using he)

theorem compare_go_logger_eq (envs : Nat → CallEnv) (context question task_type : String)
    (timeout : Nat) (ms : List String) :
    ∀ (i : Nat) (results : List (String × InferenceOutcome)) (st : BenchmarkLogger),
      (compare_models_go envs context question task_type timeout i ms results (some st)).2
        = some { st with
            benchmarks := st.benchmarks ++ (ms.enumFrom i).map
              (fun p => call_record (cmp_call envs question context task_type timeout p.1 p.2)),
            csv := st.csv ++ (ms.enumFrom i).map
              (fun p => record_to_row (call_record (cmp_call envs question context task_type timeout p.1 p.2))) } := by
  induction ms with
  | nil => intro i results st; simp [compare_models_go]
  | cons m rest ih =>
      intro i results st
      show (compare_models_go envs context question task_type timeout (i + 1) rest
          (dict_set results m (chat_with_benchmark (some st) (envs i).ev (envs i).elapsed
            (envs i).ts question context m task_type timeout).1)
          (chat_with_benchmark (some st) (envs i).ev (envs i).elapsed
            (envs i).ts question context m task_type timeout).2).2 = _
      rw [chat_logger_step, ih]
      simp [cmp_call, List.enumFrom_cons, List.append_assoc]

theorem compare_go_eq_of_nodup (envs : Nat → CallEnv) (context question task_type : String)
    (timeout : Nat) (ms : List String) :
    ∀ (i : Nat) (results : List (String × InferenceOutcome)) (logger : Option BenchmarkLogger),
      ms.Nodup → (∀ m ∈ ms, ∀ p ∈ results, p.1 ≠ m) →
      (compare_models_go envs context question task_type timeout i ms results logger).1
        = results ++ (ms.enumFrom i).map
            (fun p => (p.2, call_outcome envs question context task_type timeout p.1 p.2)) := by
  induction ms with
  | nil => intro i results logger _ _; simp [compare_models_go]
  | cons m rest ih =>
      intro i results logger hnd hdis
      have hm : ∀ p ∈ results, p.1 ≠ m :=
        fun p hp => hdis m (List.mem_cons_self m rest) p hp
      show (compare_models_go envs context question task_type timeout (i + 1) rest
          (dict_set results m (chat_with_benchmark logger (envs i).ev (envs i).elapsed
            (envs i).ts question context m task_type timeout).1)
          (chat_with_benchmark logger (envs i).ev (envs i).elapsed
            (envs i).ts question context m task_type timeout).2).1 = _
      rw [dict_set_append _ _ _ hm]
      have hout : (chat_with_benchmark logger (envs i).ev (envs i).elapsed
          (envs i).ts question context m task_type timeout).1
          = call_outcome envs question context task_type timeout i m := rfl
      rw [hout]
      have hd : ∀ m' ∈ rest,
          ∀ p ∈ results ++ [(m, call_outcome envs question context task_type timeout i m)],
            p.1 ≠ m' := by
        intro m' hm' p hp
        rcases List.mem_append.mp hp with hp1 | hp1
        · exact hdis m' (List.mem_cons_of_mem _ hm') p hp1
        · have hpe := List.mem_singleton.mp hp1
          subst hpe
          have hmn : m ∉ rest := (List.nodup_cons.mp hnd).1
          intro hEq
          have hEq2 : m = m' := hEq
          exact hmn (by rw [hEq2]; exact hm')
      rw [ih (i + 1) _ _ (List.Nodup.of_cons hnd) hd]
      simp [List.enumFrom_cons, List.append_assoc]

/-- Claim C3: `compare_models` invokes the client once per list
element in order (with a fresh logger attached, exactly one record per
element is appended), a failure for one model does not abort the
iteration, and for a duplicate-free model list the report holds
exactly one entry per model, in request order, each carrying that
model's call outcome. -/
theorem compare_models_order (envs : Nat → CallEnv) (logger : Option BenchmarkLogger)
    (models : List String) (context question task_type : String) (timeout : Nat)
    (h : models.Nodup) :
    (compare_models envs logger models context question task_type timeout).1
      = (models.enumFrom 0).map
          (fun p => (p.2, call_outcome envs question context task_type timeout p.1 p.2))
    ∧ (compare_models envs logger models context question task_type timeout).1.map Prod.fst
      = models
    ∧ (compare_models envs logger models context question task_type timeout).1.length
      = models.length
    ∧ ∀ st, logger = some st → ∃ st',
        (compare_models envs logger models context question task_type timeout).2 = some st'
        ∧ st'.benchmarks.length = st.benchmarks.length + models.length := by
  have h1 : (compare_models envs logger models context question task_type timeout).1
      = (models.enumFrom 0).map
          (fun p => (p.2, call_outcome envs question context task_type timeout p.1 p.2)) := by
    rw [compare_models]
    rw [compare_go_eq_of_nodup envs context question task_type timeout models 0 [] logger h
      (by intro m _ p hp; cases hp)]
    simp
  refine ⟨h1, ?_, ?_, ?_⟩
  · rw [h1, List.map_map]
    exact List.enumFrom_map_snd 0 models
  · rw [h1]
    simp
  · intro st hst
    subst hst
    refine ⟨_, by rw [compare_models, compare_go_logger_eq], ?_⟩
    simp

/-- Claim C3 witness: comparing `["a", "b", "c"]` where the second
call fails with a connection error still yields a three-entry report
in request order, with the failing model's outcome included. -/
theorem compare_models_order_witness :
    (["a", "b", "c"] : List String).Nodup
    ∧ (compare_models cmp_envs none ["a", "b", "c"] "ctx" "q" "general" 120).1.map Prod.fst
      = ["a", "b", "c"]
    ∧ (compare_models cmp_envs none ["a", "b", "c"] "ctx" "q" "general" 120).1.length = 3
    ∧ (dict_get (compare_models cmp_envs none ["a", "b", "c"] "ctx" "q" "general" 120).1 "b").map
        InferenceOutcome.success = some false := by
  have h := compare_models_order cmp_envs none ["a", "b", "c"] "ctx" "q" "general" 120 (by decide)
  refine ⟨by decide, h.2.1, by rw [h.2.2.1]; rfl, ?_⟩
  rw [h.1]
  rfl

theorem find_map_set (d : List (String × InferenceOutcome)) (k : String) (v : InferenceOutcome)
    (h : ∃ p ∈ d, p.1 = k) :
    (d.map (fun p => if p.1 = k then (k, v) else p)).find? (fun p => p.1 = k) = some (k, v) := by
  induction d with
  | nil => obtain ⟨p, hp, _⟩ := h; cases hp
  | cons q rest ih =>
      rw [List.map_cons]
      by_cases hq : q.1 = k
      · rw [if_pos hq]
        apply List.find?_cons_of_pos
        simp
      · rw [if_neg hq, List.find?_cons_of_neg _ (by simpa using hq)]
        apply ih
        obtain ⟨p, hp, hpk⟩ := h
        rcases List.mem_cons.mp hp with hpq | hp2
        · subst hpq; exact absurd hpk hq
        · exact ⟨p, hp2, hpk⟩

theorem find_append_right (d : List (String × InferenceOutcome)) (k : String)
    (v : InferenceOutcome) (h : ∀ p ∈ d, p.1 ≠ k) :
    (d ++ [(k, v)]).find? (fun p => p.1 = k) = some (k, v) := by
  induction d with
  | nil => simp
  | cons q rest ih =>
      rw [List.cons_append,
        List.find?_cons_of_neg _ (by simpa using h q (List.mem_cons_self q rest))]
      exact ih (fun p hp => h p (List.mem_cons_of_mem _ hp))

theorem dict_get_set_self (d : List (String × InferenceOutcome)) (k : String)
    (v : InferenceOutcome) : dict_get (dict_set d k v) k = some v := by
  rw [dict_get, dict_set]
  by_cases hc : d.any (fun p => p.1 = k)
  · rw [if_pos hc, find_map_set]
    · rfl
    · rw [List.any_eq_true] at hc
      obtain ⟨p, hp, he⟩ := hc
      exact ⟨p, hp, by simpa using he⟩
  · rw [if_neg hc, find_append_right]
    · rfl
    · intro p hp hpk
      apply hc
      rw [List.any_eq_true]
      exact ⟨p, hp, by simpa using hpk⟩

theorem find_map_set_ne (d : List (String × InferenceOutcome)) (k k2 : String)
    (v : InferenceOutcome) (h : k2 ≠ k) :
    (d.map (fun p => if p.1 = k then (k, v) else p)).find? (fun p => p.1 = k2)
      = d.find? (fun p => p.1 = k2) := by
  induction d with
  | nil => rfl
  | cons q rest ih =>
      rw [List.map_cons]
      by_cases hq : q.1 = k
      · have h1 : ¬((k, v).1 = k2) := fun he => h (Eq.symm he)
        have h2 : ¬(q.1 = k2) := by rw [hq]; exact fun he => h (Eq.symm he)
        rw [if_pos hq, List.find?_cons_of_neg _ (by simpa using h1),
          List.find?_cons_of_neg _ (by simpa using h2)]
        exact ih
      · rw [if_neg hq]
        by_cases hq2 : q.1 = k2
        · rw [List.find?_cons_of_pos _ (by simpa using hq2),
            List.find?_cons_of_pos _ (by simpa using hq2)]
        · rw [List.find?_cons_of_neg _ (by simpa using hq2),
            List.find?_cons_of_neg _ (by simpa using hq2)]
          exact ih

theorem dict_get_set_ne (d : List (String × InferenceOutcome)) (k k2 : String)
    (v : InferenceOutcome) (h : k2 ≠ k) :
    dict_get (dict_set d k v) k2 = dict_get d k2 := by
  rw [dict_get, dict_get, dict_set]
  by_cases hc : d.any (fun p => p.1 = k)
  · rw [if_pos hc, find_map_set_ne d k k2 v h]
  · rw [if_neg hc, List.find?_append]
    have h1 : ([(k, v)] : List (String × InferenceOutcome)).find? (fun p => p.1 = k2) = none := by
      rw [List.find?_cons_of_neg _ (by simpa using (fun he => h (Eq.symm he) : ¬((k, v).1 = k2)))]
      rfl
    rw [h1, Option.or_none]

theorem compare_go_append (envs : Nat → CallEnv) (context question task_type : String)
    (timeout : Nat) (l1 : List String) :
    ∀ (l2 : List String) (i : Nat) (results : List (String × InferenceOutcome))
      (logger : Option BenchmarkLogger),
      compare_models_go envs context question task_type timeout i (l1 ++ l2) results logger
        = compare_models_go envs context question task_type timeout (i + l1.length) l2
            (compare_models_go envs context question task_type timeout i l1 results logger).1
            (compare_models_go envs context question task_type timeout i l1 results logger).2 := by
  induction l1 with
  | nil => intro l2 i results logger; simp [compare_models_go]
  | cons m rest ih =>
      intro l2 i results logger
      show compare_models_go envs context question task_type timeout (i + 1) (rest ++ l2)
          (dict_set results m (chat_with_benchmark logger (envs i).ev (envs i).elapsed
            (envs i).ts question context m task_type timeout).1)
          (chat_with_benchmark logger (envs i).ev (envs i).elapsed
            (envs i).ts question context m task_type timeout).2 = _
      rw [ih]
      have hidx : i + 1 + rest.length = i + (rest.length + 1) := by omega
      rw [hidx]
      rfl

theorem compare_go_get_not_mem (envs : Nat → CallEnv) (context question task_type : String)
    (timeout : Nat) (ms : List String) :
    ∀ (i : Nat) (results : List (String × InferenceOutcome))
      (logger : Option BenchmarkLogger) (k : String), k ∉ ms →
      dict_get (compare_models_go envs context question task_type timeout i ms results logger).1 k
        = dict_get results k := by
  induction ms with
  | nil => intro i results logger k _; rfl
  | cons m rest ih =>
      intro i results logger k hk
      have hkm : k ≠ m := fun he => hk (he ▸ List.mem_cons_self m rest)
      have hkr : k ∉ rest := fun hm => hk (List.mem_cons_of_mem _ hm)
      show dict_get (compare_models_go envs context question task_type timeout (i + 1) rest
          (dict_set results m (chat_with_benchmark logger (envs i).ev (envs i).elapsed
            (envs i).ts question context m task_type timeout).1)
          (chat_with_benchmark logger (envs i).ev (envs i).elapsed
            (envs i).ts question context m task_type timeout).2).1 k = _
      rw [ih (i + 1) _ _ k hkr, dict_get_set_ne _ _ _ _ hkm]

theorem compare_go_get_head (envs : Nat → CallEnv) (context question task_type : String)
    (timeout : Nat) (m : String) (l2 : List String) (hlast : m ∉ l2) :
    ∀ (i : Nat) (results : List (String × InferenceOutcome))
      (logger : Option BenchmarkLogger),
      dict_get (compare_models_go envs context question task_type timeout i (m :: l2) results logger).1 m
        = some (call_outcome envs question context task_type timeout i m) := by
  intro i results logger
  show dict_get (compare_models_go envs context question task_type timeout (i + 1) l2
      (dict_set results m (chat_with_benchmark logger (envs i).ev (envs i).elapsed
        (envs i).ts question context m task_type timeout).1)
      (chat_with_benchmark logger (envs i).ev (envs i).elapsed
        (envs i).ts question context m task_type timeout).2).1 m = _
  rw [compare_go_get_not_mem envs context question task_type timeout l2 (i + 1) _ _ m hlast]
  rw [show (chat_with_benchmark logger (envs i).ev (envs i).elapsed
      (envs i).ts question context m task_type timeout).1
    = call_outcome envs question context task_type timeout i m from rfl]
  exact dict_get_set_self _ _ _

theorem dict_set_fst_mem (d : List (String × InferenceOutcome)) (k : String)
    (v : InferenceOutcome) (hc : d.any (fun p => p.1 = k) = true) :
    (dict_set d k v).map Prod.fst = d.map Prod.fst := by
  rw [dict_set, if_pos hc, List.map_map]
  apply List.map_congr_left
  intro p hp
  by_cases hq : p.1 = k
  · simp [hq]
  · simp [hq]

theorem dict_set_fst_not_mem (d : List (String × InferenceOutcome)) (k : String)
    (v : InferenceOutcome) (hc : ¬(d.any (fun p => p.1 = k) = true)) :
    (dict_set d k v).map Prod.fst = d.map Prod.fst ++ [k] := by
  rw [dict_set, if_neg hc, List.map_append]
  rfl

theorem compare_go_keys_nodup (envs : Nat → CallEnv) (context question task_type : String)
    (timeout : Nat) (ms : List String) :
    ∀ (i : Nat) (results : List (String × InferenceOutcome))
      (logger : Option BenchmarkLogger), (results.map Prod.fst).Nodup →
      ((compare_models_go envs context question task_type timeout i ms results logger).1.map Prod.fst).Nodup := by
  induction ms with
  | nil => intro i results logger h; exact h
  | cons m rest ih =>
      intro i results logger h
      show ((compare_models_go envs context question task_type timeout (i + 1) rest
          (dict_set results m (chat_with_benchmark logger (envs i).ev (envs i).elapsed
            (envs i).ts question context m task_type timeout).1)
          (chat_with_benchmark logger (envs i).ev (envs i).elapsed
            (envs i).ts question context m task_type timeout).2).1.map Prod.fst).Nodup
      apply ih
      by_cases hc : results.any (fun p => p.1 = m)
      · rw [dict_set_fst_mem _ _ _ hc]; exact h
      · rw [dict_set_fst_not_mem _ _ _ hc]
        have hm : m ∉ results.map Prod.fst := by
          intro hmem
          apply hc
          rw [List.any_eq_true]
          obtain ⟨p, hp, he⟩ := List.mem_map.mp hmem
          exact ⟨p, hp, by simp [he]⟩
        refine List.Nodup.append h (List.nodup_singleton m) ?_
        intro a ha hb
        rw [List.mem_singleton] at hb
        subst hb
        exact hm ha

theorem compare_go_keys_subset (envs : Nat → CallEnv) (context question task_type : String)
    (timeout : Nat) (ms : List String) :
    ∀ (i : Nat) (results : List (String × InferenceOutcome))
      (logger : Option BenchmarkLogger) (k : String),
      k ∈ (compare_models_go envs context question task_type timeout i ms results logger).1.map Prod.fst →
      k ∈ results.map Prod.fst ∨ k ∈ ms := by
  induction ms with
  | nil => intro i results logger k hk; exact Or.inl hk
  | cons m rest ih =>
      intro i results logger k hk
      rcases ih (i + 1)
          (dict_set results m (chat_with_benchmark logger (envs i).ev (envs i).elapsed
            (envs i).ts question context m task_type timeout).1)
          ((chat_with_benchmark logger (envs i).ev (envs i).elapsed
            (envs i).ts question context m task_type timeout).2) k hk with h1 | h1
      · by_cases hc : results.any (fun p => p.1 = m)
        · rw [dict_set_fst_mem _ _ _ hc] at h1
          exact Or.inl h1
        · rw [dict_set_fst_not_mem _ _ _ hc] at h1
          rcases List.mem_append.mp h1 with h2 | h2
          · exact Or.inl h2
          · rw [List.mem_singleton] at h2
            subst h2
            exact Or.inr (List.mem_cons_self _ _)
      · exact Or.inr (List.mem_cons_of_mem _ h1)

/-- Claim C10: when the model list contains a duplicate identifier
(`models = l1 ++ m :: l2` with `m ∈ l1` and the shown occurrence
last), the report holds exactly one entry for that identifier, whose
value is the outcome of the last call for it, so the report is
strictly shorter than the list — even though one request is still
issued and one benchmark record still written per list element. -/
theorem compare_models_duplicate (envs : Nat → CallEnv) (st : BenchmarkLogger)
    (l1 l2 : List String) (m context question task_type : String) (timeout : Nat)
    (hdup : m ∈ l1) (hlast : m ∉ l2) :
    ((compare_models envs (some st) (l1 ++ m :: l2) context question task_type timeout).1.map Prod.fst).count m = 1
    ∧ (compare_models envs (some st) (l1 ++ m :: l2) context question task_type timeout).1.length
        < (l1 ++ m :: l2).length
    ∧ dict_get (compare_models envs (some st) (l1 ++ m :: l2) context question task_type timeout).1 m
        = some (call_outcome envs question context task_type timeout l1.length m)
    ∧ ∃ st2, (compare_models envs (some st) (l1 ++ m :: l2) context question task_type timeout).2 = some st2
        ∧ st2.benchmarks.length = st.benchmarks.length + (l1 ++ m :: l2).length := by
  have hget : dict_get (compare_models envs (some st) (l1 ++ m :: l2) context question task_type timeout).1 m
      = some (call_outcome envs question context task_type timeout l1.length m) := by
    rw [compare_models, compare_go_append, Nat.zero_add]
    exact compare_go_get_head envs context question task_type timeout m l2 hlast l1.length _ _
  have hnodup : ((compare_models envs (some st) (l1 ++ m :: l2) context question task_type timeout).1.map Prod.fst).Nodup := by
    rw [compare_models]
    exact compare_go_keys_nodup envs context question task_type timeout (l1 ++ m :: l2) 0 [] (some st) (by simp)
  have hmem : m ∈ (compare_models envs (some st) (l1 ++ m :: l2) context question task_type timeout).1.map Prod.fst := by
    rcases hfind : (compare_models envs (some st) (l1 ++ m :: l2) context question task_type timeout).1.find? (fun p => p.1 = m) with _ | p
    · rw [dict_get, hfind] at hget
      exact Option.noConfusion hget
    · have hp := List.mem_of_find?_eq_some hfind
      have hpk := List.find?_some hfind
      rw [List.mem_map]
      exact ⟨p, hp, by simpa using hpk⟩
  refine ⟨List.count_eq_one_of_mem hnodup hmem, ?_, hget, ?_⟩
  · have hsub : ∀ k ∈ (compare_models envs (some st) (l1 ++ m :: l2) context question task_type timeout).1.map Prod.fst,
        k ∈ l1 ++ m :: l2 := by
      intro k hk
      rw [compare_models] at hk
      rcases compare_go_keys_subset envs context question task_type timeout (l1 ++ m :: l2) 0 [] (some st) k hk with h1 | h1
      · simp at h1
      · exact h1
    have hnotnodup : ¬(l1 ++ m :: l2).Nodup := by
      rw [List.nodup_append]
      rintro ⟨_, _, hdisj⟩
      exact hdisj hdup (List.mem_cons_self _ _)
    have hlen : (compare_models envs (some st) (l1 ++ m :: l2) context question task_type timeout).1.length
        = ((compare_models envs (some st) (l1 ++ m :: l2) context question task_type timeout).1.map Prod.fst).length :=
      (List.length_map _ _).symm
    rw [hlen]
    calc ((compare_models envs (some st) (l1 ++ m :: l2) context question task_type timeout).1.map Prod.fst).length
        = ((compare_models envs (some st) (l1 ++ m :: l2) context question task_type timeout).1.map Prod.fst).toFinset.card :=
          (List.toFinset_card_of_nodup hnodup).symm
      _ ≤ (l1 ++ m :: l2).toFinset.card :=
          Finset.card_le_card (fun x hx => List.mem_toFinset.mpr (hsub x (List.mem_toFinset.mp hx)))
      _ = (l1 ++ m :: l2).dedup.length := List.card_toFinset _
      _ < (l1 ++ m :: l2).length := by
          have hsl := List.dedup_sublist (l1 ++ m :: l2)
          rcases Nat.lt_or_ge ((l1 ++ m :: l2).dedup).length (l1 ++ m :: l2).length with hlt | hge
          · exact hlt
          · exfalso
            have heq := hsl.eq_of_length (Nat.le_antisymm hsl.length_le hge)
            exact hnotnodup (heq ▸ List.nodup_dedup (l1 ++ m :: l2))
  · refine ⟨_, by rw [compare_models, compare_go_logger_eq], ?_⟩
    simp

/-- Claim C10 witness: comparing `["a", "b", "a"]` yields a two-entry
report with a single entry for `"a"`, while three records are
written. -/
theorem compare_models_duplicate_witness :
    ((compare_models cmp_envs (some (BenchmarkLogger.new "s" "t0")) (["a", "b"] ++ "a" :: []) "ctx" "q" "general" 120).1.map Prod.fst).count "a" = 1
    ∧ (compare_models cmp_envs (some (BenchmarkLogger.new "s" "t0")) (["a", "b"] ++ "a" :: []) "ctx" "q" "general" 120).1.length
        < (["a", "b"] ++ "a" :: []).length := by
  have h := compare_models_duplicate cmp_envs (BenchmarkLogger.new "s" "t0") ["a", "b"] [] "a" "ctx" "q" "general" 120
    (by decide) (by decide)
  exact ⟨h.1, h.2.1⟩

/-- Claim C7, counterexample: a `--list-models` invocation returns
before the input-file check, so the process exits 0 even though the
named input file does not exist — contradicting "exit code 1 whenever
the input file is missing". -/
theorem exit_code_counterexample :
    args_list_models.file_exists = false
    ∧ args_list_models.list_models = true
    ∧ process_exit_code (main_run args_list_models (fun _ => default_env) "s" "t0" true) = 0 :=
  ⟨rfl, rfl, rfl⟩

/-- Claim C7, amended: except under `--list-models` (which returns
exit 0 without consulting the file), the process exits 1 exactly when
the input file is missing or unreadable, and exits 0 in every other
run regardless of the inference outcome. -/
theorem exit_code_amended (args : MainArgs) (envs : Nat → CallEnv)
    (sid st0 : String) (jok : Bool) (h : args.list_models = false) :
    (process_exit_code (main_run args envs sid st0 jok) = 1
      ↔ (args.file_exists = false ∨ args.read_result = none))
    ∧ (process_exit_code (main_run args envs sid st0 jok) = 0
      ∨ process_exit_code (main_run args envs sid st0 jok) = 1) := by
  cases hf : args.file_exists with
  | false =>
      have hm : main_run args envs sid st0 jok = Except.ok (ExitResult.exited 1, none) := by
        simp [main_run, h, hf]
      rw [hm]
      exact ⟨⟨fun _ => Or.inl rfl, fun _ => rfl⟩, Or.inr rfl⟩
  | true =>
      cases hr : args.read_result with
      | none =>
          have hm : main_run args envs sid st0 jok = Except.ok (ExitResult.exited 1, none) := by
            simp [main_run, h, hf, hr]
          rw [hm]
          exact ⟨⟨fun _ => Or.inr rfl, fun _ => rfl⟩, Or.inr rfl⟩
      | some content =>
          have hm : process_exit_code (main_run args envs sid st0 jok) = 0 := by
            simp [main_run, h, hf, hr, process_exit_code]
          rw [hm]
          refine ⟨⟨fun h0 => absurd h0 (by decide), ?_⟩, Or.inl rfl⟩
          rintro (h1 | h1)
          · exact Bool.noConfusion h1
          · exact Option.noConfusion h1

/-- Claim C7 witness: a plain invocation with a missing input file
exits 1. -/
theorem exit_code_amended_witness :
    process_exit_code (main_run args_missing_file (fun _ => default_env) "s" "t0" true) = 1 :=
  (exit_code_amended args_missing_file (fun _ => default_env) "s" "t0" true rfl).1.mpr
    (Or.inl rfl)

/-- Claim C8: under normal operation (filesystem writes succeed; the
network may raise any of the caught exception classes at every call),
`main` never lets an exception escape: it always yields a normal
`Except.ok` behaviour, either a clean return or `sys.exit 1`, and the
latter only from the input-file checks — including benchmarked runs,
where the recorder is constructed and closed. -/
theorem main_no_uncaught_exception (args : MainArgs) (envs : Nat → CallEnv)
    (sid st0 : String) (jok : Bool) :
    ∃ r c, main_run args envs sid st0 jok = Except.ok (r, c)
      ∧ (r = ExitResult.returned ∨ r = ExitResult.exited 1)
      ∧ (r = ExitResult.exited 1
          → args.list_models = false ∧ (args.file_exists = false ∨ args.read_result = none)) := by
  cases hl : args.list_models with
  | true =>
      refine ⟨ExitResult.returned, none, by simp [main_run, hl], Or.inl rfl, ?_⟩
      intro hcontra
      exact absurd hcontra (by decide)
  | false =>
      cases hf : args.file_exists with
      | false =>
          exact ⟨ExitResult.exited 1, none, by simp [main_run, hl, hf], Or.inr rfl,
            fun _ => ⟨rfl, Or.inl rfl⟩⟩
      | true =>
          cases hr : args.read_result with
          | none =>
              exact ⟨ExitResult.exited 1, none, by simp [main_run, hl, hf, hr], Or.inr rfl,
                fun _ => ⟨rfl, Or.inr rfl⟩⟩
          | some content =>
              have hex : ∃ c, main_run args envs sid st0 jok
                  = Except.ok (ExitResult.returned, c) := by
                simp [main_run, hl, hf, hr]
              obtain ⟨c, hc⟩ := hex
              exact ⟨ExitResult.returned, c, hc, Or.inl rfl,
                fun hcontra => absurd hcontra (by decide)⟩

/-- Claim C8 witness: a concrete benchmarked single-model run returns
normally. -/
theorem main_no_uncaught_exception_witness :
    ∃ r c, main_run args_single (fun _ => default_env) "s" "t0" true = Except.ok (r, c)
      ∧ (r = ExitResult.returned ∨ r = ExitResult.exited 1)
      ∧ (r = ExitResult.exited 1
          → args_single.list_models = false
            ∧ (args_single.file_exists = false ∨ args_single.read_result = none)) :=
  main_no_uncaught_exception args_single (fun _ => default_env) "s" "t0" true
